import Mathlib

/-!
Verification of the snowflake identifier library (`src/lib.rs`).

The library defines a newtype `Snowflake(u64)` with:
 - `as_u64` returning the wrapped integer,
 - `From<u64>` wrapping an integer verbatim,
 - `timestamp_part()` computing the 41-bit timestamp field (shifted to
   bit offset 22) from the system clock relative to a custom epoch,
 - `random()` OR-ing the timestamp field with a 21-bit random draw,
 - `Default` delegating to `random()`.

Machine integers are modelled as `Nat` with explicit bounds and masks.
The wall clock is passed explicitly as the number of nanoseconds since the
Unix epoch (the resolution of Rust's `Duration`), and the random draw is
an explicit parameter, so that the clock-reading and entropy side effects
become ordinary function arguments.  The two `expect` panics inside
`timestamp_part` are modelled as `Except` errors.
-/

namespace SnowflakeRs

/-- Rust: `const EPOCH: Duration = Duration::from_millis(1_546_300_800_000)`,
the custom epoch (2019-01-01T00:00:00Z) in milliseconds since the Unix epoch. -/
def EPOCH_MILLIS : Nat := 1546300800000

/-- The custom epoch in nanoseconds since the Unix epoch; Rust `Duration`
carries nanosecond resolution, so duration comparison and subtraction happen
at this granularity. -/
def EPOCH_NANOS : Nat := EPOCH_MILLIS * 1000000

/-- One more than the largest `u64` value: `u64::try_from` succeeds exactly
on values below this bound. -/
def U64_LIMIT : Nat := 2 ^ 64

/-- Rust: `pub struct Snowflake(u64)`. -/
structure Snowflake where
  val : Nat
  deriving DecidableEq

/-- Rust: `Snowflake::as_u64` — returns the underlying `u64` verbatim. -/
def Snowflake.as_u64 (s : Snowflake) : Nat := s.val

/-- Rust: `impl From<u64> for Snowflake` — wraps the `u64` verbatim
(`Snowflake(value)`), with no masking or validation. -/
def Snowflake.fromU64 (value : Nat) : Snowflake := ⟨value⟩

/-- The two panics of `Snowflake::timestamp_part`:
`EpochOrderingError` is the panic of `timestamp - EPOCH` on `Duration`
underflow ("overflow when subtracting durations"), i.e. the clock reads
earlier than the custom epoch; `TimestampOverflowError` is the panic
`expect("timestamp overflow")` of `u64::try_from(timestamp.as_millis())`. -/
inductive SnowflakeError where
  | EpochOrderingError
  | TimestampOverflowError
  deriving DecidableEq

/-- Rust: `Snowflake::timestamp_part`, as a function of the wall-clock
reading `now_ns` (the duration `SystemTime::now().duration_since(UNIX_EPOCH)`
in nanoseconds).  Rust's steps, in order:
 1. `timestamp - EPOCH` panics iff the duration is below the epoch;
 2. `as_millis` divides the nanosecond difference by 1 000 000;
 3. `u64::try_from` panics iff the milliseconds exceed `u64::MAX`;
 4. `(timestamp & 0x01FF_FFFF_FFFF) << 22` masks to 41 bits and shifts,
    computed in `u64` (hence the final reduction modulo `2 ^ 64`). -/
def Snowflake.timestamp_part (now_ns : Nat) : Except SnowflakeError Nat :=
  if now_ns < EPOCH_NANOS then
    Except.error SnowflakeError.EpochOrderingError
  else if (now_ns - EPOCH_NANOS) / 1000000 < U64_LIMIT then
    Except.ok ((((now_ns - EPOCH_NANOS) / 1000000 &&& 0x01FFFFFFFFFF) <<< 22) % U64_LIMIT)
  else
    Except.error SnowflakeError.TimestampOverflowError

/-- The inclusive upper bound of the random draw in `Snowflake::random`:
`rand::rng().random_range(0..=0x001F_FFFF)`. -/
def RANDOM_MAX : Nat := 0x001FFFFF

/-- Rust: `Snowflake::random`, as a function of the wall-clock reading and
of the value `random_part` drawn by `random_range(0..=0x001F_FFFF)`:
`Snowflake(Self::timestamp_part() | random_part)`. -/
def Snowflake.random (now_ns random_part : Nat) : Except SnowflakeError Snowflake :=
  (Snowflake.timestamp_part now_ns).map (fun t => ⟨t ||| random_part⟩)

/-- Rust: `impl Default for Snowflake` — `Self::random()`. -/
def Snowflake.generateDefault (now_ns random_part : Nat) : Except SnowflakeError Snowflake :=
  Snowflake.random now_ns random_part

/-- The timestamp-field mask used by the repository's own test:
`let timestamp_mask = ((1u64 << 41) - 1) << 22` — bits 22 through 62. -/
def timestamp_mask : Nat := ((1 <<< 41) - 1) <<< 22

/-! ### Helper lemmas -/

/-- A 41-bit quantity shifted up by 22 bits stays below `2 ^ 63`. -/
theorem mod41_shift22_lt (e : Nat) : e % 2 ^ 41 * 2 ^ 22 < 2 ^ 63 := by
  have h41 : e % 2 ^ 41 < 2 ^ 41 := Nat.mod_lt _ (by norm_num)
  calc e % 2 ^ 41 * 2 ^ 22 < 2 ^ 41 * 2 ^ 22 :=
        mul_lt_mul_of_pos_right h41 (by norm_num)
    _ = 2 ^ 63 := by norm_num

/-- On the non-error path, `timestamp_part` returns exactly the elapsed
milliseconds reduced modulo `2 ^ 41` and shifted up by 22 bits (the final
`u64` reduction modulo `2 ^ 64` never truncates anything). -/
theorem timestamp_part_eq_ok (now_ns : Nat) (h1 : EPOCH_NANOS ≤ now_ns)
    (h2 : (now_ns - EPOCH_NANOS) / 1000000 < U64_LIMIT) :
    Snowflake.timestamp_part now_ns =
      Except.ok ((now_ns - EPOCH_NANOS) / 1000000 % 2 ^ 41 * 2 ^ 22) := by
  unfold Snowflake.timestamp_part
  rw [if_neg (Nat.not_lt.mpr h1), if_pos h2]
  have hmask : (0x01FFFFFFFFFF : Nat) = 2 ^ 41 - 1 := by norm_num
  rw [hmask, Nat.and_pow_two_sub_one_eq_mod, Nat.shiftLeft_eq]
  have hlt : (now_ns - EPOCH_NANOS) / 1000000 % 2 ^ 41 * 2 ^ 22 < U64_LIMIT :=
    lt_of_lt_of_le (mod41_shift22_lt _) (by norm_num [U64_LIMIT])
  rw [Nat.mod_eq_of_lt hlt]

/-- Inversion: any value returned by `timestamp_part` is the elapsed
milliseconds modulo `2 ^ 41`, shifted up by 22 bits. -/
theorem timestamp_part_ok_inv {now_ns t : Nat}
    (h : Snowflake.timestamp_part now_ns = Except.ok t) :
    t = (now_ns - EPOCH_NANOS) / 1000000 % 2 ^ 41 * 2 ^ 22 := by
  by_cases h1 : now_ns < EPOCH_NANOS
  · unfold Snowflake.timestamp_part at h
    rw [if_pos h1] at h
    exact absurd h (by simp)
  · by_cases h2 : (now_ns - EPOCH_NANOS) / 1000000 < U64_LIMIT
    · rw [timestamp_part_eq_ok now_ns (Nat.le_of_not_lt h1) h2] at h
      exact (Except.ok.inj h).symm
    · unfold Snowflake.timestamp_part at h
      rw [if_neg h1, if_neg h2] at h
      exact absurd h (by simp)

/-- Any value returned by `timestamp_part` is below `2 ^ 63`. -/
theorem timestamp_part_ok_lt {now_ns t : Nat}
    (h : Snowflake.timestamp_part now_ns = Except.ok t) : t < 2 ^ 63 := by
  rw [timestamp_part_ok_inv h]
  exact mod41_shift22_lt _

/-- Inversion for `random`: a successfully produced snowflake is the OR of a
successfully computed timestamp part with the random draw. -/
theorem random_ok_inv {now_ns r : Nat} {sf : Snowflake}
    (h : Snowflake.random now_ns r = Except.ok sf) :
    ∃ t, Snowflake.timestamp_part now_ns = Except.ok t ∧ sf.val = t ||| r := by
  unfold Snowflake.random at h
  cases ht : Snowflake.timestamp_part now_ns with
  | error e => rw [ht] at h; exact absurd h (by simp [Except.map])
  | ok t =>
    rw [ht] at h
    simp only [Except.map, Except.ok.injEq] at h
    exact ⟨t, rfl, by rw [← h]⟩

/-! ### Claim theorems -/

/-- C1: for every 64-bit unsigned integer `v`, wrapping `v` via `From<u64>`
and reading it back via `as_u64` yields exactly `v`, with no masking or
validation, including for values with bit 63 or bit 21 set. -/
theorem c1_fromRaw_toRaw_roundtrip (v : Nat) (hv : v < U64_LIMIT) :
    (Snowflake.fromU64 v).as_u64 = v := rfl

/-- Witness for C1 at the all-ones value `0xFFFFFFFFFFFFFFFF`
(bit 63 and bit 21 both set). -/
theorem c1_fromRaw_toRaw_roundtrip_witness :
    (0xFFFFFFFFFFFFFFFF : Nat) < U64_LIMIT ∧
      (Snowflake.fromU64 0xFFFFFFFFFFFFFFFF).as_u64 = 0xFFFFFFFFFFFFFFFF :=
  ⟨by decide, c1_fromRaw_toRaw_roundtrip 0xFFFFFFFFFFFFFFFF (by decide)⟩

/-- C2: every snowflake produced by `Snowflake::random`, for every clock
reading and every random draw in the permitted range, has bit 63 clear. -/
theorem c2_bit63_always_zero (now_ns r : Nat) (hr : r ≤ RANDOM_MAX)
    (sf : Snowflake) (h : Snowflake.random now_ns r = Except.ok sf) :
    sf.val.testBit 63 = false := by
  obtain ⟨t, ht, hval⟩ := random_ok_inv h
  have ht63 : t < 2 ^ 63 := timestamp_part_ok_lt ht
  have hr63 : r < 2 ^ 63 := lt_of_le_of_lt hr (by norm_num [RANDOM_MAX])
  rw [hval]
  exact Nat.testBit_lt_two_pow (Nat.or_lt_two_pow ht63 hr63)

/-- Witness for C2 one millisecond after the custom epoch with draw 5. -/
theorem c2_bit63_always_zero_witness :
    (5 : Nat) ≤ RANDOM_MAX ∧
      Snowflake.random (EPOCH_NANOS + 1000000) 5 = Except.ok ⟨4194309⟩ ∧
      (Snowflake.mk 4194309).val.testBit 63 = false :=
  ⟨by decide, by rfl,
    c2_bit63_always_zero (EPOCH_NANOS + 1000000) 5 (by decide) ⟨4194309⟩ (by rfl)⟩

/-- C3: every snowflake produced by `Snowflake::random`, for every clock
reading and every random draw in the permitted range `[0, 0x1FFFFF]`, has
bit 21 clear: the timestamp part only occupies bits 22 and above, and the
random part only bits 20 and below. -/
theorem c3_bit21_always_zero (now_ns r : Nat) (hr : r ≤ RANDOM_MAX)
    (sf : Snowflake) (h : Snowflake.random now_ns r = Except.ok sf) :
    sf.val.testBit 21 = false := by
  obtain ⟨t, ht, hval⟩ := random_ok_inv h
  have htEq := timestamp_part_ok_inv ht
  rw [hval, Nat.testBit_lor]
  have ht21 : t.testBit 21 = false := by
    rw [htEq, Nat.mul_comm, Nat.testBit_mul_pow_two]
    simp
  have hr21 : r.testBit 21 = false :=
    Nat.testBit_lt_two_pow (lt_of_le_of_lt hr (by norm_num [RANDOM_MAX]))
  rw [ht21, hr21]
  rfl

/-- Witness for C3 one millisecond after the custom epoch with draw 5. -/
theorem c3_bit21_always_zero_witness :
    (5 : Nat) ≤ RANDOM_MAX ∧
      Snowflake.random (EPOCH_NANOS + 1000000) 5 = Except.ok ⟨4194309⟩ ∧
      (Snowflake.mk 4194309).val.testBit 21 = false :=
  ⟨by decide, by rfl,
    c3_bit21_always_zero (EPOCH_NANOS + 1000000) 5 (by decide) ⟨4194309⟩ (by rfl)⟩

/-- C5: a clock reading strictly before the custom epoch makes
`timestamp_part` fail with `EpochOrderingError`; a reading at or after the
custom epoch never produces that error. -/
theorem c5_epoch_ordering_error (now_ns : Nat) :
    (now_ns < EPOCH_NANOS →
      Snowflake.timestamp_part now_ns =
        Except.error SnowflakeError.EpochOrderingError) ∧
    (EPOCH_NANOS ≤ now_ns →
      Snowflake.timestamp_part now_ns ≠
        Except.error SnowflakeError.EpochOrderingError) := by
  constructor
  · intro h
    unfold Snowflake.timestamp_part
    rw [if_pos h]
  · intro h
    unfold Snowflake.timestamp_part
    rw [if_neg (Nat.not_lt.mpr h)]
    by_cases h2 : (now_ns - EPOCH_NANOS) / 1000000 < U64_LIMIT
    · rw [if_pos h2]
      simp
    · rw [if_neg h2]
      simp

/-- Witness for C5: the year-2000 clock reading (946 684 800 s after the
Unix epoch, spec Scenario D) fails with `EpochOrderingError`, while reading
exactly the custom epoch does not produce that error. -/
theorem c5_epoch_ordering_error_witness :
    Snowflake.timestamp_part 946684800000000000 =
        Except.error SnowflakeError.EpochOrderingError ∧
      Snowflake.timestamp_part EPOCH_NANOS ≠
        Except.error SnowflakeError.EpochOrderingError :=
  ⟨(c5_epoch_ordering_error 946684800000000000).1 (by decide),
    (c5_epoch_ordering_error EPOCH_NANOS).2 (Nat.le_refl _)⟩

/-- C9: the `Default` implementation is the random generator itself: for the
same clock reading and the same random draw both produce the same snowflake. -/
theorem c9_default_equiv_random (now_ns random_part : Nat) :
    Snowflake.generateDefault now_ns random_part =
      Snowflake.random now_ns random_part := rfl

/-- C4: for every clock reading at or after the custom epoch whose elapsed
milliseconds `m` pass the `u64` check, `timestamp_part` returns exactly
`(m &&& 0x01FFFFFFFFFF) <<< 22`, and only bits 22 through 62 of that value
can be set: every bit below 22 and above 62 is zero. -/
theorem c4_timestamp_field_layout (now_ns : Nat) (h1 : EPOCH_NANOS ≤ now_ns)
    (h2 : (now_ns - EPOCH_NANOS) / 1000000 < U64_LIMIT) :
    Snowflake.timestamp_part now_ns =
        Except.ok (((now_ns - EPOCH_NANOS) / 1000000 &&& 0x01FFFFFFFFFF) <<< 22) ∧
      ∀ i : Nat, i < 22 ∨ 62 < i →
        Nat.testBit (((now_ns - EPOCH_NANOS) / 1000000 &&& 0x01FFFFFFFFFF) <<< 22) i =
          false := by
  have hmask : (0x01FFFFFFFFFF : Nat) = 2 ^ 41 - 1 := by norm_num
  have hval : ((now_ns - EPOCH_NANOS) / 1000000 &&& 0x01FFFFFFFFFF) <<< 22 =
      (now_ns - EPOCH_NANOS) / 1000000 % 2 ^ 41 * 2 ^ 22 := by
    rw [hmask, Nat.and_pow_two_sub_one_eq_mod, Nat.shiftLeft_eq]
  constructor
  · rw [timestamp_part_eq_ok now_ns h1 h2, hval]
  · intro i hi
    rw [hval]
    rcases hi with hlo | hhi
    · rw [Nat.mul_comm, Nat.testBit_mul_pow_two]
      simp [Nat.not_le_of_lt hlo]
    · refine Nat.testBit_lt_two_pow (lt_of_lt_of_le (mod41_shift22_lt _) ?_)
      exact Nat.pow_le_pow_right (by norm_num) hhi

/-- Witness for C4 at one millisecond after the custom epoch. -/
theorem c4_timestamp_field_layout_witness :
    Snowflake.timestamp_part (EPOCH_NANOS + 1000000) =
        Except.ok (((EPOCH_NANOS + 1000000 - EPOCH_NANOS) / 1000000 &&&
          0x01FFFFFFFFFF) <<< 22) ∧
      Nat.testBit (((EPOCH_NANOS + 1000000 - EPOCH_NANOS) / 1000000 &&&
        0x01FFFFFFFFFF) <<< 22) 21 = false :=
  ⟨(c4_timestamp_field_layout (EPOCH_NANOS + 1000000)
      (Nat.le_add_right _ _) (by decide)).1,
    (c4_timestamp_field_layout (EPOCH_NANOS + 1000000)
      (Nat.le_add_right _ _) (by decide)).2 21 (Or.inl (by decide))⟩

/-- C6 counterexample: the 41-bit field overflow is not checked.  At the
clock reading whose elapsed milliseconds equal `2 ^ 41` (the first instant
the 41-bit field overflows, around year 2089), `timestamp_part` raises no
error at all: it silently returns 0. -/
theorem c6_counterexample :
    2 ^ 41 ≤ (EPOCH_NANOS + 2 ^ 41 * 1000000 - EPOCH_NANOS) / 1000000 ∧
      Snowflake.timestamp_part (EPOCH_NANOS + 2 ^ 41 * 1000000) = Except.ok 0 :=
  ⟨by decide, by rfl⟩

/-- C6 (amended): for clock readings at or after the custom epoch,
`timestamp_part` fails with `TimestampOverflowError` exactly when the
elapsed milliseconds do not fit in an unsigned 64-bit integer; overflow of
the 41-bit field is not checked (it is silently truncated by the mask). -/
theorem c6_overflow_iff_u64 (now_ns : Nat) (h1 : EPOCH_NANOS ≤ now_ns) :
    Snowflake.timestamp_part now_ns =
        Except.error SnowflakeError.TimestampOverflowError ↔
      U64_LIMIT ≤ (now_ns - EPOCH_NANOS) / 1000000 := by
  unfold Snowflake.timestamp_part
  rw [if_neg (Nat.not_lt.mpr h1)]
  by_cases h2 : (now_ns - EPOCH_NANOS) / 1000000 < U64_LIMIT
  · rw [if_pos h2]
    simp [Nat.not_le.mpr h2]
  · rw [if_neg h2]
    simp [Nat.le_of_not_lt h2]

/-- Witness for C6 (amended): at the clock reading whose elapsed
milliseconds equal `2 ^ 64`, `timestamp_part` fails with
`TimestampOverflowError`. -/
theorem c6_overflow_iff_u64_witness :
    Snowflake.timestamp_part (EPOCH_NANOS + 2 ^ 64 * 1000000) =
      Except.error SnowflakeError.TimestampOverflowError :=
  (c6_overflow_iff_u64 (EPOCH_NANOS + 2 ^ 64 * 1000000)
    (Nat.le_add_right _ _)).mpr (by decide)

/-- C7 counterexample: one nanosecond after the custom epoch is strictly
after the epoch, yet the generated snowflake (draw 5) has a zero timestamp
field, because less than one full millisecond has elapsed. -/
theorem c7_counterexample :
    EPOCH_NANOS < EPOCH_NANOS + 1 ∧ (5 : Nat) ≤ RANDOM_MAX ∧
      Snowflake.random (EPOCH_NANOS + 1) 5 = Except.ok ⟨5⟩ ∧
      (Snowflake.mk 5).val &&& timestamp_mask = 0 :=
  ⟨Nat.lt_succ_self _, by decide, by rfl, by decide⟩

/-- C7 (amended): every snowflake produced by `Snowflake::random` at a clock
reading whose elapsed milliseconds since the custom epoch are non-zero
modulo `2 ^ 41` (at least one full millisecond has elapsed and the 41-bit
field has not wrapped around to zero) has a non-zero timestamp field
(bits 22 through 62). -/
theorem c7_timestamp_nonzero_amended (now_ns r : Nat) (hr : r ≤ RANDOM_MAX)
    (hm : (now_ns - EPOCH_NANOS) / 1000000 % 2 ^ 41 ≠ 0) (sf : Snowflake)
    (h : Snowflake.random now_ns r = Except.ok sf) :
    sf.val &&& timestamp_mask ≠ 0 := by
  obtain ⟨t, ht, hval⟩ := random_ok_inv h
  have htEq := timestamp_part_ok_inv ht
  set q := (now_ns - EPOCH_NANOS) / 1000000 % 2 ^ 41 with hq
  obtain ⟨i, hbit, -⟩ := Nat.exists_most_significant_bit hm
  have hi41 : i < 41 := by
    by_contra hcon
    have hqi : q < 2 ^ i :=
      lt_of_lt_of_le (Nat.mod_lt _ (by norm_num))
        (Nat.pow_le_pow_right (by norm_num) (Nat.le_of_not_lt hcon))
    rw [Nat.testBit_lt_two_pow hqi] at hbit
    exact Bool.false_ne_true hbit
  have htrue : Nat.testBit (sf.val &&& timestamp_mask) (i + 22) = true := by
    rw [hval, Nat.testBit_land, Nat.testBit_lor, htEq]
    have htb : Nat.testBit (q * 2 ^ 22) (i + 22) = true := by
      rw [Nat.mul_comm, Nat.testBit_mul_pow_two]
      simpa using hbit
    have hone : (1 : Nat) <<< 41 = 2 ^ 41 := by
      rw [Nat.shiftLeft_eq, Nat.one_mul]
    have hmb : Nat.testBit timestamp_mask (i + 22) = true := by
      unfold timestamp_mask
      rw [hone, Nat.testBit_shiftLeft, Nat.add_sub_cancel,
        Nat.testBit_two_pow_sub_one]
      simp [hi41]
    rw [htb, hmb]
    simp
  intro hzero
  rw [hzero, Nat.zero_testBit] at htrue
  exact Bool.false_ne_true htrue

/-- Witness for C7 (amended) at one millisecond after the custom epoch. -/
theorem c7_timestamp_nonzero_amended_witness :
    (5 : Nat) ≤ RANDOM_MAX ∧
      (EPOCH_NANOS + 1000000 - EPOCH_NANOS) / 1000000 % 2 ^ 41 ≠ 0 ∧
      Snowflake.random (EPOCH_NANOS + 1000000) 5 = Except.ok ⟨4194309⟩ ∧
      (Snowflake.mk 4194309).val &&& timestamp_mask ≠ 0 :=
  ⟨by decide, by decide, by rfl,
    c7_timestamp_nonzero_amended (EPOCH_NANOS + 1000000) 5 (by decide)
      (by decide) ⟨4194309⟩ (by rfl)⟩

/-- C8: for every value `t` produced by `timestamp_part` and every random
draw `r` in `[0, 2097151]`, the bitwise OR `t ||| r` used by
`Snowflake::random` equals the arithmetic sum `t + r`: the two fields occupy
disjoint bit ranges, so no carry can occur. -/
theorem c8_or_equals_add (now_ns t r : Nat) (hr : r ≤ RANDOM_MAX)
    (ht : Snowflake.timestamp_part now_ns = Except.ok t) :
    t ||| r = t + r := by
  have htEq := timestamp_part_ok_inv ht
  have hr22 : r < 2 ^ 22 := lt_of_le_of_lt hr (by norm_num [RANDOM_MAX])
  rw [htEq, Nat.mul_comm]
  exact (Nat.mul_add_lt_is_or hr22 _).symm

/-- Witness for C8 one millisecond after the custom epoch with the maximal
draw `0x1FFFFF`. -/
theorem c8_or_equals_add_witness :
    (0x1FFFFF : Nat) ≤ RANDOM_MAX ∧
      Snowflake.timestamp_part (EPOCH_NANOS + 1000000) = Except.ok (2 ^ 22) ∧
      2 ^ 22 ||| 0x1FFFFF = 2 ^ 22 + 0x1FFFFF :=
  ⟨by decide, by rfl,
    c8_or_equals_add (EPOCH_NANOS + 1000000) (2 ^ 22) 0x1FFFFF
      (by decide) (by rfl)⟩

/-- C10 (implicit): for every clock reading at or after the custom epoch
whose elapsed milliseconds `m` satisfy `2 ^ 41 ≤ m < 2 ^ 64`,
`timestamp_part` raises no error: the only overflow check is the `u64`
conversion, so the value is silently truncated to `(m mod 2 ^ 41) <<< 22`,
aliasing post-2089 timestamps onto earlier ones. -/
theorem c10_silent_wraparound (now_ns : Nat) (h1 : EPOCH_NANOS ≤ now_ns)
    (h2 : 2 ^ 41 ≤ (now_ns - EPOCH_NANOS) / 1000000)
    (h3 : (now_ns - EPOCH_NANOS) / 1000000 < U64_LIMIT) :
    Snowflake.timestamp_part now_ns =
      Except.ok ((now_ns - EPOCH_NANOS) / 1000000 % 2 ^ 41 * 2 ^ 22) :=
  timestamp_part_eq_ok now_ns h1 h3

/-- Witness for C10 at elapsed milliseconds `2 ^ 41 + 7`: the result is
`7 <<< 22`, the same value produced 2 ^ 41 milliseconds earlier. -/
theorem c10_silent_wraparound_witness :
    Snowflake.timestamp_part (EPOCH_NANOS + (2 ^ 41 + 7) * 1000000) =
      Except.ok ((EPOCH_NANOS + (2 ^ 41 + 7) * 1000000 - EPOCH_NANOS) /
        1000000 % 2 ^ 41 * 2 ^ 22) :=
  c10_silent_wraparound (EPOCH_NANOS + (2 ^ 41 + 7) * 1000000)
    (Nat.le_add_right _ _) (by decide) (by decide)

end SnowflakeRs
